import Mathlib

/-!
# Verification of the go-astc-encoder bridging and framing layer

Shallow embedding of the C++ sources:

* `src/bench/astcbenchcpp.cpp` — the container codec: `write_u24_le`,
  `read_u24_le`, `write_astc_header`, and the header-parsing / block-count
  portion of `decode_main`.
* `src/astc/native/internal/astcenc/bridge.cpp` — slice-pointer-table
  construction (`astc_native_image_init_*`, the transient table inside
  `astc_native_compress_image_ex` / `astc_native_decompress_image_ex`),
  the thread-local progress dispatch, the decompression output-size guard,
  and `astc_native_get_block_info`.

Bytes are modelled as `Nat` values below 256, byte buffers as `List Nat`,
and pointer values as byte addresses (`Nat`).  The external astcenc codec
is out of scope; where a bridge function delegates to it, the codec's
behaviour enters as an explicit parameter (its returned error code, and
its effect on the output buffer).
-/

namespace Astc

/-! ## Error codes

The bridge returns upstream `astcenc_error` codes.  The constructors named
here are the ones the bridge itself produces (`ASTCENC_ERR_BAD_PARAM`,
`ASTCENC_ERR_OUT_OF_MEM` — the spec's `OutOfSpace`); every other
codec-produced code is carried by `OTHER`. -/
inductive AstcencError where
  | SUCCESS
  | ERR_OUT_OF_MEM
  | ERR_BAD_PARAM
  | OTHER (code : Nat)
deriving DecidableEq, Repr

/-- Container-level failures of the benchmark harness's `decode_main`.
The C++ code throws `std::runtime_error` with messages
"input too small" / "truncated ASTC data" (`Truncated`),
"invalid ASTC magic" (`BadMagic`), "invalid ASTC header"
(`InvalidArgument`). -/
inductive ContainerError where
  | Truncated
  | BadMagic
  | InvalidArgument
deriving DecidableEq, Repr

/-! ## Container codec (from `src/bench/astcbenchcpp.cpp`) -/

/-- `read_u24_le` (astcbenchcpp.cpp:144-146): 3-byte little-endian decode,
`p[0] | p[1] << 8 | p[2] << 16`. -/
def read_u24_le (b0 b1 b2 : Nat) : Nat :=
  b0 + b1 * 256 + b2 * 65536

/-- `write_u24_le` (astcbenchcpp.cpp:148-152): 3-byte little-endian encode;
each `static_cast<uint8_t>` of the `uint32_t` value truncates modulo 256. -/
def write_u24_le (v : Nat) : List Nat :=
  [v % 256, v / 256 % 256, v / 65536 % 256]

/-- `write_astc_header` (astcbenchcpp.cpp:154-165): magic `13 AB A1 5C`,
one byte per block dimension (`static_cast<uint8_t>`, i.e. modulo 256),
then three 3-byte little-endian image dimensions. -/
def write_astc_header (bx bY bz sx sy sz : Nat) : List Nat :=
  [0x13, 0xAB, 0xA1, 0x5C, bx % 256, bY % 256, bz % 256]
    ++ write_u24_le sx ++ write_u24_le sy ++ write_u24_le sz

/-- The five header fields (block shape counted as one field of three
dimensions, plus the three image dimensions). -/
structure Header where
  bx : Nat
  bY : Nat
  bz : Nat
  sx : Nat
  sy : Nat
  sz : Nat
deriving DecidableEq, Repr

/-- Header parsing from `decode_main` (astcbenchcpp.cpp:192-208): the
length check (< 16 bytes) precedes the magic check, which precedes the
zero-dimension check.  The dimension values are `int` casts of byte /
24-bit reads, so the C `<= 0` tests reduce to `= 0` on naturals. -/
def readHeader (file : List Nat) : Except ContainerError Header :=
  if file.length < 16 then .error .Truncated
  else
    let hdr := fun i => file.getD i 0
    if hdr 0 ≠ 0x13 ∨ hdr 1 ≠ 0xAB ∨ hdr 2 ≠ 0xA1 ∨ hdr 3 ≠ 0x5C then
      .error .BadMagic
    else
      let bx := hdr 4
      let bY := hdr 5
      let bz := hdr 6
      let sx := read_u24_le (hdr 7) (hdr 8) (hdr 9)
      let sy := read_u24_le (hdr 10) (hdr 11) (hdr 12)
      let sz := read_u24_le (hdr 13) (hdr 14) (hdr 15)
      if bx = 0 ∨ bY = 0 ∨ bz = 0 ∨ sx = 0 ∨ sy = 0 ∨ sz = 0 then
        .error .InvalidArgument
      else
        .ok ⟨bx, bY, bz, sx, sy, sz⟩

/-- One axis of the block count (astcbenchcpp.cpp:210-212):
`(s + b - 1) / b` in C integer division. -/
def blocks_axis (s b : Nat) : Nat := (s + b - 1) / b

/-- `total_blocks` (astcbenchcpp.cpp:213): product of the three per-axis
block counts. -/
def total_blocks (bx bY bz sx sy sz : Nat) : Nat :=
  blocks_axis sx bx * blocks_axis sy bY * blocks_axis sz bz

/-- `need` (astcbenchcpp.cpp:214): header plus 16 bytes per block. -/
def total_file_size (bx bY bz sx sy sz : Nat) : Nat :=
  16 + total_blocks bx bY bz sx sy sz * 16

/-- Full container parse of `decode_main` (astcbenchcpp.cpp:192-217):
header parsing followed by the whole-file length check against
`16 + total_blocks * 16`. -/
def decode_parse (file : List Nat) : Except ContainerError Header :=
  match readHeader file with
  | .error e => .error e
  | .ok h =>
      if file.length < total_file_size h.bx h.bY h.bz h.sx h.sy h.sz then
        .error .Truncated
      else
        .ok h

/-! ## SampleBuffer View slice tables
(from `src/astc/native/internal/astcenc/bridge.cpp`)

Pointers are modelled as byte addresses.  In the C++ code the slice loop
adds `z * slice_stride` to a *typed* pointer (`uint8_t*` / `uint16_t*` /
`float*`), so the byte offset is `z * slice_stride * elementSize`. -/

/-- `ASTCENC_TYPE_U8` (bridge.h: "0=u8, 1=f16, 2=f32 (matches ASTCENC_TYPE_*)"). -/
def ASTCENC_TYPE_U8 : Nat := 0
/-- `ASTCENC_TYPE_F16`. -/
def ASTCENC_TYPE_F16 : Nat := 1
/-- `ASTCENC_TYPE_F32`. -/
def ASTCENC_TYPE_F32 : Nat := 2

/-- Byte size of one sample element for each `ASTCENC_TYPE_*` code
(`uint8_t` = 1, `uint16_t` = 2, `float` = 4); 0 for unsupported codes. -/
def element_size (data_type : Nat) : Nat :=
  if data_type = ASTCENC_TYPE_U8 then 1
  else if data_type = ASTCENC_TYPE_F16 then 2
  else if data_type = ASTCENC_TYPE_F32 then 4
  else 0

/-- `slice_stride` (bridge.cpp:414 etc.): `dim_x * dim_y * 4`, in elements. -/
def slice_stride (dim_x dim_y : Nat) : Nat := dim_x * dim_y * 4

/-- The transient slice-pointer table built inside
`astc_native_compress_image_ex` (bridge.cpp:413-443) and
`astc_native_decompress_image_ex` (bridge.cpp:551-577): one branch per
`ASTCENC_TYPE_*` code, each filling `dim_z` entries
`base + z * slice_stride` in the branch's pointer type; `none` models the
`ASTCENC_ERR_BAD_PARAM` return for an unknown type code. -/
def transient_slice_table (data_type base dim_x dim_y dim_z : Nat) :
    Option (List Nat) :=
  if data_type = ASTCENC_TYPE_U8 then
    some ((List.range dim_z).map fun z => base + z * slice_stride dim_x dim_y * 1)
  else if data_type = ASTCENC_TYPE_F16 then
    some ((List.range dim_z).map fun z => base + z * slice_stride dim_x dim_y * 2)
  else if data_type = ASTCENC_TYPE_F32 then
    some ((List.range dim_z).map fun z => base + z * slice_stride dim_x dim_y * 4)
  else
    none

/-- Validation and slice-table construction of
`astc_native_compress_image_ex` (bridge.cpp:402-445): null-pointer /
zero-dimension check, then the per-type table.  Pointer presence is
modelled by `Bool` flags. -/
def astc_native_compress_image_ex_slices
    (ctx_present rgba_present out_present : Bool)
    (data_type dim_x dim_y dim_z base : Nat) :
    Except AstcencError (List Nat) :=
  if ¬ctx_present ∨ ¬rgba_present ∨ ¬out_present
      ∨ dim_x = 0 ∨ dim_y = 0 ∨ dim_z = 0 then
    .error .ERR_BAD_PARAM
  else
    match transient_slice_table data_type base dim_x dim_y dim_z with
    | none => .error .ERR_BAD_PARAM
    | some t => .ok t

/-- `astc_native_image_init_u8` (bridge.cpp:272-304): validation, then a
`dim_z`-entry table of `uint8_t*` slice pointers at element stride
`dim_x * dim_y * 4` (element size 1 byte). -/
def astc_native_image_init_u8 (img_present rgba_present : Bool)
    (dim_x dim_y dim_z base : Nat) : Except AstcencError (List Nat) :=
  if ¬img_present ∨ ¬rgba_present ∨ dim_x = 0 ∨ dim_y = 0 ∨ dim_z = 0 then
    .error .ERR_BAD_PARAM
  else
    .ok ((List.range dim_z).map fun z => base + z * slice_stride dim_x dim_y * 1)

/-- `astc_native_image_init_f16` (bridge.cpp:306-338): as `_u8` but with
`uint16_t*` pointer arithmetic (element size 2 bytes). -/
def astc_native_image_init_f16 (img_present rgba_present : Bool)
    (dim_x dim_y dim_z base : Nat) : Except AstcencError (List Nat) :=
  if ¬img_present ∨ ¬rgba_present ∨ dim_x = 0 ∨ dim_y = 0 ∨ dim_z = 0 then
    .error .ERR_BAD_PARAM
  else
    .ok ((List.range dim_z).map fun z => base + z * slice_stride dim_x dim_y * 2)

/-- `astc_native_image_init_f32` (bridge.cpp:340-372): as `_u8` but with
`float*` pointer arithmetic (element size 4 bytes). -/
def astc_native_image_init_f32 (img_present rgba_present : Bool)
    (dim_x dim_y dim_z base : Nat) : Except AstcencError (List Nat) :=
  if ¬img_present ∨ ¬rgba_present ∨ dim_x = 0 ∨ dim_y = 0 ∨ dim_z = 0 then
    .error .ERR_BAD_PARAM
  else
    .ok ((List.range dim_z).map fun z => base + z * slice_stride dim_x dim_y * 4)

/-! ## Decompression output-size guard (bridge.cpp:503-612)

The codec call `astcenc_decompress_image` is external; its behaviour on
this input enters as the returned error `codec_err` and its effect
`codec_write` on the output memory.  The guard must return before the
codec is ever consulted, so on the guard path the result buffer is the
untouched input memory for *every* codec behaviour. -/

/-- `astc_native_decompress_image_ex` (bridge.cpp:503-590): null/zero
validation, per-type `need` computation
(`texel_count * 4 * sizeof(element)`), `ASTCENC_ERR_OUT_OF_MEM` when the
declared `out_len` is below `need`, else the codec's verbatim result.
`out_mem` models the caller's output memory, `out_len` the caller-declared
length. -/
def astc_native_decompress_image_ex
    (codec_err : AstcencError) (codec_write : List Nat → List Nat)
    (ctx_present data_present out_present : Bool)
    (out_type dim_x dim_y dim_z out_len : Nat) (out_mem : List Nat) :
    AstcencError × List Nat :=
  if ¬ctx_present ∨ ¬data_present ∨ ¬out_present
      ∨ dim_x = 0 ∨ dim_y = 0 ∨ dim_z = 0 then
    (.ERR_BAD_PARAM, out_mem)
  else
    let texel_count := dim_x * dim_y * dim_z
    let need? : Option Nat :=
      if out_type = ASTCENC_TYPE_U8 then some (texel_count * 4)
      else if out_type = ASTCENC_TYPE_F16 then some (texel_count * 4 * 2)
      else if out_type = ASTCENC_TYPE_F32 then some (texel_count * 4 * 4)
      else none
    match need? with
    | none => (.ERR_BAD_PARAM, out_mem)
    | some need =>
        if out_len < need then (.ERR_OUT_OF_MEM, out_mem)
        else (codec_err, codec_write out_mem)

/-- `astc_native_decompress_image_rgba8` (bridge.cpp:592-639): fixed U8
output; `need = dim_x * dim_y * dim_z * 4`. -/
def astc_native_decompress_image_rgba8
    (codec_err : AstcencError) (codec_write : List Nat → List Nat)
    (ctx_present data_present out_present : Bool)
    (dim_x dim_y dim_z out_len : Nat) (out_mem : List Nat) :
    AstcencError × List Nat :=
  if ¬ctx_present ∨ ¬data_present ∨ ¬out_present
      ∨ dim_x = 0 ∨ dim_y = 0 ∨ dim_z = 0 then
    (.ERR_BAD_PARAM, out_mem)
  else
    let need := dim_x * dim_y * dim_z * 4
    if out_len < need then (.ERR_OUT_OF_MEM, out_mem)
    else (codec_err, codec_write out_mem)

/-! ## Progress dispatch (bridge.cpp:16-33, 449-458)

One thread's `astc_native_tls_progress_handle` slot (initially 0) with the
actions that touch it: progress events raised through
`astc_native_progress_callback`, and compress calls, each of which saves
the slot, stores its own handle, runs its body (the codec work, during
which events and — reentrantly — nested calls may happen on this thread),
then restores the saved value and returns the codec's error
(bridge.cpp:449-458 has a single exit path after registration; the
restore does not depend on the codec's error). -/

/-- Thread-local actions on one thread, in order.  `ev` is one progress
event raised by the codec worker; `call h e inner rest` is a compress call
registering handle `h` whose codec work performs `inner` and returns
error `e`, followed by `rest`. -/
inductive Trace where
  | nil : Trace
  | ev : Trace → Trace
  | call : Nat → AstcencError → Trace → Trace → Trace

/-- Run a trace from a given slot value; returns the final slot value and
the list of handle values delivered to the sink
(`astc_native_go_progress`), in order.  `ev` mirrors
`astc_native_progress_callback` (bridge.cpp:26-33): deliver the slot value
iff it is nonzero.  `call` mirrors bridge.cpp:449-458: save, store,
run body, restore unconditionally (the codec's error `e` is returned to
the caller but never influences the slot). -/
def runTrace : Nat → Trace → Nat × List Nat
  | slot, .nil => (slot, [])
  | slot, .ev rest =>
      let d := if slot ≠ 0 then [slot] else []
      let r := runTrace slot rest
      (r.1, d ++ r.2)
  | slot, .call h _e inner rest =>
      let old := slot
      let rIn := runTrace h inner
      let r := runTrace old rest
      (r.1, rIn.2 ++ r.2)

/-- A run of `n` consecutive progress events. -/
def evRun : Nat → Trace
  | 0 => .nil
  | n + 1 => .ev (evRun n)

/-! ## Block info extraction (bridge.cpp:699-744)

`float` fields are only ever copied bit-for-bit (`memcpy`), never
interpreted, so they are modelled by their 32-bit patterns as `Nat`s. -/

/-- The codec-native `astcenc_block_info` produced by
`astcenc_get_block_info` (external interface; flags are C++ `bool`). -/
structure astcenc_block_info where
  profile : Int
  block_x : Nat
  block_y : Nat
  block_z : Nat
  texel_count : Nat
  is_error_block : Bool
  is_constant_block : Bool
  is_hdr_block : Bool
  is_dual_plane_block : Bool
  partition_count : Nat
  partition_index : Nat
  dual_plane_component : Nat
  color_endpoint_modes : List Nat
  color_level_count : Nat
  weight_level_count : Nat
  weight_x : Nat
  weight_y : Nat
  weight_z : Nat
  color_endpoints : List Nat
  weight_values_plane1 : List Nat
  weight_values_plane2 : List Nat
  partition_assignment : List Nat
deriving DecidableEq, Repr, Inhabited

/-- The bridge's POD `astc_native_block_info` (bridge.h:140-166; the four
classification flags are `uint8_t` 0/1). -/
structure astc_native_block_info where
  profile : Int
  block_x : Nat
  block_y : Nat
  block_z : Nat
  texel_count : Nat
  is_error_block : Nat
  is_constant_block : Nat
  is_hdr_block : Nat
  is_dual_plane_block : Nat
  partition_count : Nat
  partition_index : Nat
  dual_plane_component : Nat
  color_endpoint_modes : List Nat
  color_level_count : Nat
  weight_level_count : Nat
  weight_x : Nat
  weight_y : Nat
  weight_z : Nat
  color_endpoints : List Nat
  weight_values_plane1 : List Nat
  weight_values_plane2 : List Nat
  partition_assignment : List Nat
deriving DecidableEq, Repr, Inhabited

/-- `astc_native_get_block_info` (bridge.cpp:699-744): null checks, then
the codec decode (entering as its returned error `codec_err` and decoded
record `codec_info`); on a codec error the function returns that error
with the caller's record `out_info` untouched; on success it performs the
field-by-field copy of bridge.cpp:716-741. -/
def astc_native_get_block_info
    (codec_err : AstcencError) (codec_info : astcenc_block_info)
    (ctx_present data_present out_present : Bool)
    (out_info : astc_native_block_info) :
    AstcencError × astc_native_block_info :=
  if ¬ctx_present ∨ ¬data_present ∨ ¬out_present then
    (.ERR_BAD_PARAM, out_info)
  else if codec_err ≠ .SUCCESS then
    (codec_err, out_info)
  else
    (.SUCCESS,
      { profile := codec_info.profile
        block_x := codec_info.block_x
        block_y := codec_info.block_y
        block_z := codec_info.block_z
        texel_count := codec_info.texel_count
        is_error_block := if codec_info.is_error_block then 1 else 0
        is_constant_block := if codec_info.is_constant_block then 1 else 0
        is_hdr_block := if codec_info.is_hdr_block then 1 else 0
        is_dual_plane_block := if codec_info.is_dual_plane_block then 1 else 0
        partition_count := codec_info.partition_count
        partition_index := codec_info.partition_index
        dual_plane_component := codec_info.dual_plane_component
        color_endpoint_modes := codec_info.color_endpoint_modes
        color_level_count := codec_info.color_level_count
        weight_level_count := codec_info.weight_level_count
        weight_x := codec_info.weight_x
        weight_y := codec_info.weight_y
        weight_z := codec_info.weight_z
        color_endpoints := codec_info.color_endpoints
        weight_values_plane1 := codec_info.weight_values_plane1
        weight_values_plane2 := codec_info.weight_values_plane2
        partition_assignment := codec_info.partition_assignment })

/-- Spec-side model of §4.5's `writeHeader` ("fails with `InvalidArgument`
if any dimension exceeds its field's representable range (block dims
> 255, image dims > 2^24-1)"), for comparison with the source's
`write_astc_header`, which has no failure path. -/
def writeHeader_specModel (bx bY bz sx sy sz : Nat) :
    Except ContainerError (List Nat) :=
  if bx > 255 ∨ bY > 255 ∨ bz > 255
      ∨ sx > 2 ^ 24 - 1 ∨ sy > 2 ^ 24 - 1 ∨ sz > 2 ^ 24 - 1 then
    .error .InvalidArgument
  else
    .ok (write_astc_header bx bY bz sx sy sz)

/-- The first four file bytes match the magic constant `13 AB A1 5C`
(the condition of astcbenchcpp.cpp:196). -/
def magic_ok (file : List Nat) : Prop :=
  file.getD 0 0 = 0x13 ∧ file.getD 1 0 = 0xAB
    ∧ file.getD 2 0 = 0xA1 ∧ file.getD 3 0 = 0x5C

instance (file : List Nat) : Decidable (magic_ok file) := by
  unfold magic_ok; infer_instance

/-! ## Helper lemmas -/

/-- Decoding the three bytes written by `write_u24_le` recovers the value
modulo `2^24`. -/
theorem read_write_u24 (v : Nat) :
    read_u24_le (v % 256) (v / 256 % 256) (v / 65536 % 256) = v % 16777216 := by
  unfold read_u24_le
  omega

/-- `getD` on a mapped range evaluates the function at in-range indices. -/
theorem range_map_getD (f : Nat → Nat) {n z : Nat} (h : z < n) :
    ((List.range n).map f).getD z 0 = f z := by
  simp [List.getD_eq_getElem?_getD, List.getElem?_map, List.getElem?_range h]

/-- Running any trace of events and (nested) calls leaves the thread's
slot at its initial value: every call restores what it saved, and events
never write the slot. -/
theorem runTrace_slot_preserved (t : Trace) : ∀ s : Nat, (runTrace s t).1 = s := by
  induction t with
  | nil => intro s; rfl
  | ev rest ih => intro s; simpa [runTrace] using ih s
  | call h e inner rest ihInner ihRest => intro s; simpa [runTrace] using ihRest s

/-- A run of `n` events delivers the current slot value once per event
when it is nonzero, and nothing when it is zero. -/
theorem runTrace_evRun (n : Nat) : ∀ s : Nat,
    runTrace s (evRun n) = (s, if s = 0 then [] else List.replicate n s) := by
  induction n with
  | zero => intro s; by_cases hs : s = 0 <;> simp [evRun, runTrace, hs]
  | succ n ih =>
      intro s
      by_cases hs : s = 0 <;>
        simp [evRun, runTrace, hs, ih s, ih 0, List.replicate_succ]

/-! ## Claim theorems -/

/-- C1: Container header round-trip — for every block shape with each
dimension in 1..255 and every image size with each dimension in
1..2^24-1, `readHeader (write_astc_header …)` returns exactly the five
fields as written; moreover the 3-byte little-endian encode/decode of an
image dimension is mutually inverse (decode ∘ encode is the identity on
values below 2^24, and encode ∘ decode is the identity on byte
triples). -/
theorem header_roundtrip (bx bY bz sx sy sz : Nat)
    (hbx1 : 1 ≤ bx) (hbx2 : bx ≤ 255)
    (hby1 : 1 ≤ bY) (hby2 : bY ≤ 255)
    (hbz1 : 1 ≤ bz) (hbz2 : bz ≤ 255)
    (hsx1 : 1 ≤ sx) (hsx2 : sx ≤ 2 ^ 24 - 1)
    (hsy1 : 1 ≤ sy) (hsy2 : sy ≤ 2 ^ 24 - 1)
    (hsz1 : 1 ≤ sz) (hsz2 : sz ≤ 2 ^ 24 - 1) :
    readHeader (write_astc_header bx bY bz sx sy sz) = .ok ⟨bx, bY, bz, sx, sy, sz⟩
    ∧ (∀ v ≤ 2 ^ 24 - 1,
        read_u24_le (v % 256) (v / 256 % 256) (v / 65536 % 256) = v)
    ∧ (∀ b0 b1 b2, b0 < 256 → b1 < 256 → b2 < 256 →
        write_u24_le (read_u24_le b0 b1 b2) = [b0, b1, b2]) := by
  refine ⟨?_, ?_, ?_⟩
  · have hx : read_u24_le (sx % 256) (sx / 256 % 256) (sx / 65536 % 256) = sx := by
      rw [read_write_u24]; omega
    have hy : read_u24_le (sy % 256) (sy / 256 % 256) (sy / 65536 % 256) = sy := by
      rw [read_write_u24]; omega
    have hz : read_u24_le (sz % 256) (sz / 256 % 256) (sz / 65536 % 256) = sz := by
      rw [read_write_u24]; omega
    have h4 : bx % 256 = bx := Nat.mod_eq_of_lt (by omega)
    have h5 : bY % 256 = bY := Nat.mod_eq_of_lt (by omega)
    have h6 : bz % 256 = bz := Nat.mod_eq_of_lt (by omega)
    simp [readHeader, write_astc_header, write_u24_le, List.getD, hx, hy, hz,
      h4, h5, h6]
    omega
  · intro v hv
    rw [read_write_u24]; omega
  · intro b0 b1 b2 h0 h1 h2
    unfold write_u24_le read_u24_le
    have e0 : (b0 + b1 * 256 + b2 * 65536) % 256 = b0 := by omega
    have e1 : (b0 + b1 * 256 + b2 * 65536) / 256 % 256 = b1 := by omega
    have e2 : (b0 + b1 * 256 + b2 * 65536) / 65536 % 256 = b2 := by omega
    rw [e0, e1, e2]

/-- C1 witness: concrete round trip at block shape 4×4×1, image
12×8×1. -/
theorem header_roundtrip_witness :
    readHeader (write_astc_header 4 4 1 12 8 1) = .ok ⟨4, 4, 1, 12, 8, 1⟩ :=
  (header_roundtrip 4 4 1 12 8 1
    (by decide) (by decide) (by decide) (by decide) (by decide) (by decide)
    (by decide) (by decide) (by decide) (by decide) (by decide) (by decide)).1

/-- C5: Block-count and file-size arithmetic — `total_blocks` is the
product of the three integer ceiling divisions (with the Galois
characterisation of each axis count as the least `n` with `s ≤ n * b`),
`total_file_size = 16 + total_blocks * 16`, and in particular block shape
4×4×1 with image 12×8×1 gives 6 blocks and a 112-byte file. -/
theorem block_count_arithmetic (bx bY bz sx sy sz : Nat)
    (hbx : 0 < bx) (hby : 0 < bY) (hbz : 0 < bz) :
    total_blocks bx bY bz sx sy sz = (sx ⌈/⌉ bx) * (sy ⌈/⌉ bY) * (sz ⌈/⌉ bz)
    ∧ total_file_size bx bY bz sx sy sz
        = 16 + total_blocks bx bY bz sx sy sz * 16
    ∧ (sx ≤ blocks_axis sx bx * bx ∧ ∀ n, sx ≤ n * bx → blocks_axis sx bx ≤ n)
    ∧ total_blocks 4 4 1 12 8 1 = 6
    ∧ total_file_size 4 4 1 12 8 1 = 112 := by
  refine ⟨rfl, rfl, ⟨?_, ?_⟩, by decide, by decide⟩
  · have h := le_smul_ceilDiv (α := ℕ) (β := ℕ) hbx (b := sx)
    rw [smul_eq_mul, Nat.ceilDiv_eq_add_pred_div] at h
    unfold blocks_axis
    rw [Nat.mul_comm]
    exact h
  · intro n hn
    have h := (ceilDiv_le_iff_le_smul (α := ℕ) (β := ℕ) hbx
        (b := sx) (c := n)).2 (by rw [smul_eq_mul, Nat.mul_comm]; exact hn)
    rw [Nat.ceilDiv_eq_add_pred_div] at h
    exact h

/-- C5 witness: the arithmetic at block shape 4×4×1, image 12×8×1. -/
theorem block_count_arithmetic_witness :
    total_blocks 4 4 1 12 8 1 = 6 ∧ total_file_size 4 4 1 12 8 1 = 112 :=
  ⟨(block_count_arithmetic 4 4 1 12 8 1 (by decide) (by decide) (by decide)).2.2.2.1,
   (block_count_arithmetic 4 4 1 12 8 1 (by decide) (by decide) (by decide)).2.2.2.2⟩

/-- C9: for positive block-shape and image dimensions, `total_blocks` is
monotonically non-decreasing in each of width, height, and depth
individually, holding everything else fixed. -/
theorem block_count_monotone (bx bY bz sx sy sz sx' sy' sz' : Nat)
    (hbx : 0 < bx) (hby : 0 < bY) (hbz : 0 < bz)
    (hsx : 0 < sx) (hsy : 0 < sy) (hsz : 0 < sz) :
    (sx ≤ sx' → total_blocks bx bY bz sx sy sz ≤ total_blocks bx bY bz sx' sy sz)
    ∧ (sy ≤ sy' → total_blocks bx bY bz sx sy sz ≤ total_blocks bx bY bz sx sy' sz)
    ∧ (sz ≤ sz' → total_blocks bx bY bz sx sy sz ≤ total_blocks bx bY bz sx sy sz') := by
  have axis_mono : ∀ (s s' b : Nat), s ≤ s' → blocks_axis s b ≤ blocks_axis s' b := by
    intro s s' b h
    exact Nat.div_le_div_right (by omega)
  refine ⟨fun h => ?_, fun h => ?_, fun h => ?_⟩
  · exact Nat.mul_le_mul
      (Nat.mul_le_mul (axis_mono _ _ _ h) (Nat.le_refl _)) (Nat.le_refl _)
  · exact Nat.mul_le_mul
      (Nat.mul_le_mul (Nat.le_refl _) (axis_mono _ _ _ h)) (Nat.le_refl _)
  · exact Nat.mul_le_mul (Nat.le_refl _) (axis_mono _ _ _ h)

/-- C9 witness: widening a 12×8×1 image to 13×8×1 under 4×4×1 blocks
does not decrease the block count. -/
theorem block_count_monotone_witness :
    total_blocks 4 4 1 12 8 1 ≤ total_blocks 4 4 1 13 8 1 :=
  (block_count_monotone 4 4 1 12 8 1 13 8 1
    (by decide) (by decide) (by decide) (by decide) (by decide) (by decide)).1
    (by decide)

/-- C2: SampleBuffer View slice layout — for every valid construction
(present pointers, positive dimensions, element kind in {U8, F16, F32}
with element sizes 1, 2, 4 bytes), both the transient table built inside
`astc_native_compress_image_ex` and the tables built by
`astc_native_image_init_{u8,f16,f32}` have exactly `dim_z` entries, and
entry `z` is the byte address `base + z * dim_x * dim_y * 4 * elementSize`
for every `z < dim_z`. -/
theorem slice_table_layout (t base dx dy dz z : Nat)
    (ht : t = ASTCENC_TYPE_U8 ∨ t = ASTCENC_TYPE_F16 ∨ t = ASTCENC_TYPE_F32)
    (hx : 0 < dx) (hy : 0 < dy) (hz : 0 < dz) (hzlt : z < dz) :
    (∃ tbl, astc_native_compress_image_ex_slices true true true t dx dy dz base
        = .ok tbl
      ∧ tbl.length = dz
      ∧ tbl.getD z 0 = base + z * (dx * dy * 4 * element_size t))
    ∧ (∃ tbl, astc_native_image_init_u8 true true dx dy dz base = .ok tbl
      ∧ tbl.length = dz ∧ tbl.getD z 0 = base + z * (dx * dy * 4 * 1))
    ∧ (∃ tbl, astc_native_image_init_f16 true true dx dy dz base = .ok tbl
      ∧ tbl.length = dz ∧ tbl.getD z 0 = base + z * (dx * dy * 4 * 2))
    ∧ (∃ tbl, astc_native_image_init_f32 true true dx dy dz base = .ok tbl
      ∧ tbl.length = dz ∧ tbl.getD z 0 = base + z * (dx * dy * 4 * 4)) := by
  have hx' : dx ≠ 0 := Nat.pos_iff_ne_zero.mp hx
  have hy' : dy ≠ 0 := Nat.pos_iff_ne_zero.mp hy
  have hz' : dz ≠ 0 := Nat.pos_iff_ne_zero.mp hz
  refine ⟨?_, ?_, ?_, ?_⟩
  · rcases ht with h | h | h <;> subst h
    · refine ⟨(List.range dz).map fun w => base + w * slice_stride dx dy * 1,
        ?_, by simp, ?_⟩
      · simp [astc_native_compress_image_ex_slices, transient_slice_table,
          ASTCENC_TYPE_U8, hx', hy', hz']
      · rw [range_map_getD _ hzlt]
        simp only [slice_stride, element_size, ASTCENC_TYPE_U8,
          ASTCENC_TYPE_F16, ASTCENC_TYPE_F32]
        norm_num
    · refine ⟨(List.range dz).map fun w => base + w * slice_stride dx dy * 2,
        ?_, by simp, ?_⟩
      · simp [astc_native_compress_image_ex_slices, transient_slice_table,
          ASTCENC_TYPE_U8, ASTCENC_TYPE_F16, hx', hy', hz']
      · rw [range_map_getD _ hzlt]
        simp only [slice_stride, element_size, ASTCENC_TYPE_U8,
          ASTCENC_TYPE_F16]
        norm_num
        ring
    · refine ⟨(List.range dz).map fun w => base + w * slice_stride dx dy * 4,
        ?_, by simp, ?_⟩
      · simp [astc_native_compress_image_ex_slices, transient_slice_table,
          ASTCENC_TYPE_U8, ASTCENC_TYPE_F16, ASTCENC_TYPE_F32, hx', hy', hz']
      · rw [range_map_getD _ hzlt]
        simp only [slice_stride, element_size, ASTCENC_TYPE_U8,
          ASTCENC_TYPE_F16, ASTCENC_TYPE_F32]
        norm_num
        ring
  · refine ⟨(List.range dz).map fun w => base + w * slice_stride dx dy * 1,
      ?_, by simp, ?_⟩
    · simp [astc_native_image_init_u8, hx', hy', hz']
    · rw [range_map_getD _ hzlt]
      simp only [slice_stride]
      ring
  · refine ⟨(List.range dz).map fun w => base + w * slice_stride dx dy * 2,
      ?_, by simp, ?_⟩
    · simp [astc_native_image_init_f16, hx', hy', hz']
    · rw [range_map_getD _ hzlt]
      simp only [slice_stride]
      ring
  · refine ⟨(List.range dz).map fun w => base + w * slice_stride dx dy * 4,
      ?_, by simp, ?_⟩
    · simp [astc_native_image_init_f32, hx', hy', hz']
    · rw [range_map_getD _ hzlt]
      simp only [slice_stride]
      ring

/-- C2 witness: a 3×2×2 F16 view over base address 1000; slice 1 sits at
byte offset `1 * 3 * 2 * 4 * 2 = 48`. -/
theorem slice_table_layout_witness :
    ∃ tbl, astc_native_compress_image_ex_slices true true true
        ASTCENC_TYPE_F16 3 2 2 1000 = .ok tbl
      ∧ tbl.length = 2 ∧ tbl.getD 1 0 = 1000 + 1 * (3 * 2 * 4 * element_size ASTCENC_TYPE_F16) :=
  (slice_table_layout ASTCENC_TYPE_F16 1000 3 2 2 1
    (by simp [ASTCENC_TYPE_F16]) (by decide) (by decide) (by decide) (by decide)).1

/-- C3 counterexample: the claim quantifies over *all* caller-supplied
handle values, but the trampoline (bridge.cpp:28-32) suppresses handle 0:
registering handle 0 and raising one progress event on the same thread
delivers nothing to the sink, not the handle once. -/
theorem progress_delivery_zero_counterexample :
    runTrace 0 (Trace.call 0 AstcencError.SUCCESS (evRun 1) Trace.nil) = (0, [])
    ∧ ([] : List Nat) ≠ [0] :=
  ⟨rfl, by decide⟩

/-- C3 amended: for every *nonzero* handle `h` registered on a thread by
a compress call, every progress event raised on that thread while the
call is active delivers exactly `h`, unchanged, once per event (`n`
events yield exactly `n` deliveries of `h`); a call registering handle 0
delivers nothing.  In both cases the slot reverts afterwards. -/
theorem progress_delivery (s h n : Nat) (e e' : AstcencError) (hh : h ≠ 0) :
    runTrace s (Trace.call h e (evRun n) Trace.nil) = (s, List.replicate n h)
    ∧ runTrace s (Trace.call 0 e' (evRun n) Trace.nil) = (s, []) := by
  constructor
  · simp [runTrace, runTrace_evRun, hh]
  · simp [runTrace, runTrace_evRun]

/-- C3 witness: handle 7 with three events delivers `[7, 7, 7]`. -/
theorem progress_delivery_witness :
    runTrace 0 (Trace.call 7 AstcencError.SUCCESS (evRun 3) Trace.nil)
      = (0, [7, 7, 7]) :=
  (progress_delivery 0 7 3 AstcencError.SUCCESS AstcencError.SUCCESS
    (by decide)).1

/-- C4: Progress slot restoration — after any trace of events and
(nested) compress calls the thread's slot holds its prior value again
(each call restores what it saved, for every codec return value,
bridge.cpp:449-458 having a single exit path after registration); in
particular with outer handle `A` and a nested inner call registering `B`,
an event raised after the inner call returns observes `A` again. -/
theorem progress_slot_restoration (s A B : Nat) (e1 e2 : AstcencError)
    (t inner : Trace) (hA : A ≠ 0) :
    (runTrace s t).1 = s
    ∧ runTrace 0 (Trace.call A e1
        (Trace.call B e2 inner (Trace.ev Trace.nil)) Trace.nil)
      = (0, (runTrace B inner).2 ++ [A]) := by
  constructor
  · exact runTrace_slot_preserved t s
  · simp [runTrace, hA]

/-- C4 witness: outer handle 5, inner call with handle 9 and one event;
the event after the inner call observes 5. -/
theorem progress_slot_restoration_witness :
    runTrace 0 (Trace.call 5 AstcencError.SUCCESS
        (Trace.call 9 AstcencError.SUCCESS (evRun 1) (Trace.ev Trace.nil))
        Trace.nil)
      = (0, [9, 5]) := by
  have h := (progress_slot_restoration 0 5 9 AstcencError.SUCCESS
    AstcencError.SUCCESS Trace.nil (evRun 1) (by decide)).2
  simpa using h

/-- C6: Decompression output-size guard — with present pointers, nonzero
dimensions, and a supported output element kind, a declared output length
strictly below `dim_x * dim_y * dim_z * 4 * elementSize` makes the call
fail with `ASTCENC_ERR_OUT_OF_MEM` (the spec's `OutOfSpace`) before the
codec runs, leaving the caller's memory untouched for *every* codec
behaviour; with a sufficient length the codec's own result is returned
verbatim.  The `rgba8` wrapper (element size 1) behaves identically. -/
theorem decompress_output_size_guard
    (ce : AstcencError) (cw : List Nat → List Nat)
    (t dx dy dz out_len : Nat) (mem : List Nat)
    (ht : t = ASTCENC_TYPE_U8 ∨ t = ASTCENC_TYPE_F16 ∨ t = ASTCENC_TYPE_F32)
    (hx : 0 < dx) (hy : 0 < dy) (hz : 0 < dz) :
    (out_len < dx * dy * dz * 4 * element_size t →
      astc_native_decompress_image_ex ce cw true true true t dx dy dz out_len mem
        = (.ERR_OUT_OF_MEM, mem))
    ∧ (dx * dy * dz * 4 * element_size t ≤ out_len →
      astc_native_decompress_image_ex ce cw true true true t dx dy dz out_len mem
        = (ce, cw mem))
    ∧ (out_len < dx * dy * dz * 4 →
      astc_native_decompress_image_rgba8 ce cw true true true dx dy dz out_len mem
        = (.ERR_OUT_OF_MEM, mem))
    ∧ (dx * dy * dz * 4 ≤ out_len →
      astc_native_decompress_image_rgba8 ce cw true true true dx dy dz out_len mem
        = (ce, cw mem)) := by
  have hx' : dx ≠ 0 := Nat.pos_iff_ne_zero.mp hx
  have hy' : dy ≠ 0 := Nat.pos_iff_ne_zero.mp hy
  have hz' : dz ≠ 0 := Nat.pos_iff_ne_zero.mp hz
  refine ⟨fun hlt => ?_, fun hge => ?_, fun hlt => ?_, fun hge => ?_⟩
  · rcases ht with h | h | h <;> subst h <;>
      simp_all [astc_native_decompress_image_ex, element_size,
        ASTCENC_TYPE_U8, ASTCENC_TYPE_F16, ASTCENC_TYPE_F32]
  · rcases ht with h | h | h <;> subst h <;>
      simp_all [astc_native_decompress_image_ex, element_size,
        ASTCENC_TYPE_U8, ASTCENC_TYPE_F16, ASTCENC_TYPE_F32]
  · simp_all [astc_native_decompress_image_rgba8]
  · simp_all [astc_native_decompress_image_rgba8]

/-- C6 witness: a 4×4×1 U8 decompression needs 64 bytes; a declared
length of 63 is rejected out-of-space with the 3-byte memory untouched,
and a length of 64 returns the codec verbatim (here: success and a marker
write). -/
theorem decompress_output_size_guard_witness :
    astc_native_decompress_image_ex AstcencError.SUCCESS (fun m => 9 :: m)
        true true true ASTCENC_TYPE_U8 4 4 1 63 [1, 2, 3]
      = (AstcencError.ERR_OUT_OF_MEM, [1, 2, 3])
    ∧ astc_native_decompress_image_ex AstcencError.SUCCESS (fun m => 9 :: m)
        true true true ASTCENC_TYPE_U8 4 4 1 64 [1, 2, 3]
      = (AstcencError.SUCCESS, [9, 1, 2, 3]) :=
  ⟨(decompress_output_size_guard AstcencError.SUCCESS (fun m => 9 :: m)
      ASTCENC_TYPE_U8 4 4 1 63 [1, 2, 3]
      (Or.inl rfl) (by decide) (by decide) (by decide)).1 (by decide),
   (decompress_output_size_guard AstcencError.SUCCESS (fun m => 9 :: m)
      ASTCENC_TYPE_U8 4 4 1 64 [1, 2, 3]
      (Or.inl rfl) (by decide) (by decide) (by decide)).2.1 (by decide)⟩

/-- C7 counterexample: §4.5 requires `writeHeader` to fail with
`InvalidArgument` when a block dimension exceeds 255, but the source's
`write_astc_header` (astcbenchcpp.cpp:154-165) has no failure path: at
block-x = 300 it silently truncates modulo 256, emitting the same
16 bytes as block-x = 44. -/
theorem write_header_range_counterexample :
    writeHeader_specModel 300 4 1 12 8 1 = .error .InvalidArgument
    ∧ write_astc_header 300 4 1 12 8 1 = write_astc_header 44 4 1 12 8 1
    ∧ (write_astc_header 300 4 1 12 8 1).length = 16 :=
  ⟨rfl, rfl, rfl⟩

/-- C7 amended: `write_astc_header` performs no range validation — for
*every* input it succeeds with 16 bytes, storing each block-shape
dimension modulo 256 and each image dimension modulo 2^24 (silent
truncation instead of an `InvalidArgument` failure). -/
theorem write_header_truncation (bx bY bz sx sy sz : Nat) :
    (write_astc_header bx bY bz sx sy sz).length = 16
    ∧ (write_astc_header bx bY bz sx sy sz).getD 4 0 = bx % 256
    ∧ (write_astc_header bx bY bz sx sy sz).getD 5 0 = bY % 256
    ∧ (write_astc_header bx bY bz sx sy sz).getD 6 0 = bz % 256
    ∧ read_u24_le ((write_astc_header bx bY bz sx sy sz).getD 7 0)
        ((write_astc_header bx bY bz sx sy sz).getD 8 0)
        ((write_astc_header bx bY bz sx sy sz).getD 9 0) = sx % 2 ^ 24
    ∧ read_u24_le ((write_astc_header bx bY bz sx sy sz).getD 10 0)
        ((write_astc_header bx bY bz sx sy sz).getD 11 0)
        ((write_astc_header bx bY bz sx sy sz).getD 12 0) = sy % 2 ^ 24
    ∧ read_u24_le ((write_astc_header bx bY bz sx sy sz).getD 13 0)
        ((write_astc_header bx bY bz sx sy sz).getD 14 0)
        ((write_astc_header bx bY bz sx sy sz).getD 15 0) = sz % 2 ^ 24 := by
  refine ⟨rfl, rfl, rfl, rfl, ?_, ?_, ?_⟩ <;>
    · show read_u24_le _ _ _ = _
      rw [show (2 : Nat) ^ 24 = 16777216 from rfl]
      exact read_write_u24 _

/-- C8: `readHeader` error taxonomy — fewer than 16 bytes yields
`Truncated` (the length check precedes the magic check, so this covers
bad-magic short buffers too); 16 or more bytes with a wrong magic yields
`BadMagic`; a good magic with any zero decoded dimension yields
`InvalidArgument`; and a well-formed header whose file is shorter than
`16 + total_blocks * 16` bytes is rejected as `Truncated` by the full
parse.  Each container error propagates unchanged through
`decode_parse`. -/
theorem read_header_error_taxonomy (file : List Nat) :
    (file.length < 16 →
      readHeader file = .error .Truncated
      ∧ decode_parse file = .error .Truncated)
    ∧ (16 ≤ file.length → ¬ magic_ok file →
      readHeader file = .error .BadMagic
      ∧ decode_parse file = .error .BadMagic)
    ∧ (16 ≤ file.length → magic_ok file →
      (file.getD 4 0 = 0 ∨ file.getD 5 0 = 0 ∨ file.getD 6 0 = 0
        ∨ read_u24_le (file.getD 7 0) (file.getD 8 0) (file.getD 9 0) = 0
        ∨ read_u24_le (file.getD 10 0) (file.getD 11 0) (file.getD 12 0) = 0
        ∨ read_u24_le (file.getD 13 0) (file.getD 14 0) (file.getD 15 0) = 0) →
      readHeader file = .error .InvalidArgument
      ∧ decode_parse file = .error .InvalidArgument)
    ∧ (∀ h, readHeader file = .ok h →
      file.length < 16 + total_blocks h.bx h.bY h.bz h.sx h.sy h.sz * 16 →
      decode_parse file = .error .Truncated) := by
  refine ⟨fun hlen => ?_, fun hlen hmagic => ?_, fun hlen hmagic hzero => ?_,
    fun h hok hshort => ?_⟩
  · have hr : readHeader file = .error .Truncated := by
      unfold readHeader
      rw [if_pos hlen]
    exact ⟨hr, by unfold decode_parse; rw [hr]⟩
  · have hr : readHeader file = .error .BadMagic := by
      unfold readHeader
      rw [if_neg (by omega)]
      rw [if_pos]
      unfold magic_ok at hmagic
      tauto
    exact ⟨hr, by unfold decode_parse; rw [hr]⟩
  · have hr : readHeader file = .error .InvalidArgument := by
      unfold readHeader
      rw [if_neg (by omega)]
      rw [if_neg (by unfold magic_ok at hmagic; tauto)]
      rw [if_pos hzero]
    exact ⟨hr, by unfold decode_parse; rw [hr]⟩
  · unfold decode_parse
    rw [hok]
    simp only [total_file_size] at hshort ⊢
    rw [if_pos hshort]

/-- C8 witness: a 15-byte all-zero buffer is `Truncated` (even though its
magic is also wrong); a 16-byte buffer with a wrong first byte is
`BadMagic`; a magic-only header with all-zero dimensions is
`InvalidArgument`; and a bare valid 16-byte header whose block data is
missing is `Truncated` by the full parse. -/
theorem read_header_error_taxonomy_witness :
    readHeader (List.replicate 15 0) = .error .Truncated
    ∧ readHeader (0 :: List.replicate 15 0) = .error .BadMagic
    ∧ readHeader (0x13 :: 0xAB :: 0xA1 :: 0x5C :: List.replicate 12 0)
        = .error .InvalidArgument
    ∧ decode_parse (write_astc_header 4 4 1 12 8 1) = .error .Truncated :=
  ⟨((read_header_error_taxonomy (List.replicate 15 0)).1 (by decide)).1,
   ((read_header_error_taxonomy (0 :: List.replicate 15 0)).2.1
      (by decide) (by decide)).1,
   ((read_header_error_taxonomy
      (0x13 :: 0xAB :: 0xA1 :: 0x5C :: List.replicate 12 0)).2.2.1
      (by decide) (by decide) (by decide)).1,
   (read_header_error_taxonomy (write_astc_header 4 4 1 12 8 1)).2.2.2
      ⟨4, 4, 1, 12, 8, 1⟩ (by rfl) (by decide)⟩

/-- C10: Block-info extraction is atomic on failure — with present
context, block, and output pointers, if the codec's decode of the
16-byte block returns an error, `astc_native_get_block_info` returns
that error and the caller-supplied output record is returned with every
field unmodified (the copy of bridge.cpp:716-741 never starts). -/
theorem block_info_atomic_on_failure (ce : AstcencError)
    (ci : astcenc_block_info) (out : astc_native_block_info)
    (h : ce ≠ .SUCCESS) :
    astc_native_get_block_info ce ci true true true out = (ce, out) := by
  simp [astc_native_get_block_info, h]

/-- C10 witness: a codec error (code 7) leaves a concrete output record
exactly as it was. -/
theorem block_info_atomic_on_failure_witness :
    astc_native_get_block_info (AstcencError.OTHER 7) default true true true
        { (default : astc_native_block_info) with texel_count := 99 }
      = (AstcencError.OTHER 7,
        { (default : astc_native_block_info) with texel_count := 99 }) :=
  block_info_atomic_on_failure (AstcencError.OTHER 7) default
    { (default : astc_native_block_info) with texel_count := 99 } (by decide)

end Astc
